import Mathlib

/-!
Verification of the Data-Storm repository (weather fetching and analysis).

The repository consists of two Python modules:
* `src/analyzer.py` — `WeatherAnalyzer`: builds a tabular structure from a
  list of weather records, cleans it, and computes summary statistics;
* `fetcher.py` — `WeatherDataFetcher`: fetches current weather for a city
  over HTTP and maps failures to typed errors.

Shallow embedding conventions:
* a pandas `DataFrame` of weather data is a `List Row`, where each of the
  three numeric columns holds `Option ℚ` — `none` is pandas' missing
  marker (NaN), and floating-point values are modelled as exact rationals;
* Python dynamic values are `PyVal`; Python exceptions are the `PyError`
  type (`valueError` models `ValueError`, i.e. the spec's
  `InvalidInputError`; `analysisError` models `WeatherAnalysisError`, the
  spec's `AnalysisError`; `weatherDataError` models `WeatherDataError`);
* the fetcher's HTTP interaction is modelled by passing in the provider's
  response (`FetchResponse`); the function additionally returns a `Bool`
  recording whether the `requests.get` call was reached, so that
  "no network call happens" is expressible.
-/

/-- Python dynamic values, as far as the repository inspects them. -/
inductive PyVal where
  | pyInt (n : ℤ)
  | pyFloat (q : ℚ)
  | pyBool (b : Bool)
  | pyStr (s : String)
  | pyNone
deriving DecidableEq, Repr

/-- Python truthiness (`not x` in the guards of the source). -/
def PyVal.isTruthy : PyVal → Bool
  | .pyInt n => decide (n ≠ 0)
  | .pyFloat q => decide (q ≠ 0)
  | .pyBool b => b
  | .pyStr s => decide (s ≠ "")
  | .pyNone => false

/-- `isinstance(x, str)`. -/
def PyVal.isStr : PyVal → Bool
  | .pyStr _ => true
  | _ => false

/-- `isinstance(x, (int, float))`: in Python `bool` is a subtype of `int`,
so booleans pass this check. -/
def PyVal.isNumberLike : PyVal → Bool
  | .pyInt _ => true
  | .pyFloat _ => true
  | .pyBool _ => true
  | _ => false

/-- The numeric value of a number-like `PyVal` (`True` counts as 1,
`False` as 0, as in Python arithmetic). -/
def PyVal.toRat : PyVal → ℚ
  | .pyInt n => (n : ℚ)
  | .pyFloat q => q
  | .pyBool b => if b then 1 else 0
  | _ => 0

/-- The underlying string of a `pyStr` value. -/
def PyVal.asStr : PyVal → String
  | .pyStr s => s
  | _ => ""

/-- The exceptions raised by the repository: `ValueError`
(spec: `InvalidInputError` / `ConfigurationError`), `WeatherAnalysisError`
(spec: `AnalysisError`) and `WeatherDataError`. -/
inductive PyError where
  | valueError (msg : String)
  | analysisError (msg : String)
  | weatherDataError (msg : String)
deriving DecidableEq, Repr

/-- One row of the weather `DataFrame` after `data_to_dataframe`: the
`city` column is untouched, the three numeric columns are `Option ℚ`
(`none` = NaN, pandas' missing marker). -/
structure Row where
  city : String
  temp : Option ℚ
  humidity : Option ℚ
  pressure : Option ℚ
deriving DecidableEq, Repr

/-- pandas `series >= c` semantics on a single cell: a missing value
compares `False`. -/
def geB (o : Option ℚ) (c : ℚ) : Bool :=
  match o with
  | none => false
  | some v => decide (c ≤ v)

/-- pandas `series <= c` on a single cell: missing compares `False`. -/
def leB (o : Option ℚ) (c : ℚ) : Bool :=
  match o with
  | none => false
  | some v => decide (v ≤ c)

/-- pandas `series > c` on a single cell: missing compares `False`. -/
def gtB (o : Option ℚ) (c : ℚ) : Bool :=
  match o with
  | none => false
  | some v => decide (c < v)

/-- `WeatherAnalyzer.clean_data` (src/analyzer.py lines 48-65):
`dropna(subset=['temp','humidity','pressure'])`, then keep
`0 <= humidity <= 100`, then keep `pressure > 0`. -/
def clean_data (df : List Row) : List Row :=
  (((df.filter fun r =>
      r.temp.isSome && r.humidity.isSome && r.pressure.isSome).filter fun r =>
        geB r.humidity 0 && leB r.humidity 100).filter fun r =>
          gtB r.pressure 0)

/-- The spec's row-keeping predicate, stated as in §4.2 of the spec: all
three numeric fields present, `0 ≤ humidity ≤ 100` and `pressure > 0`. -/
def specKeep (r : Row) : Bool :=
  match r.temp, r.humidity, r.pressure with
  | some _, some h, some p => decide (0 ≤ h ∧ h ≤ 100 ∧ 0 < p)
  | _, _, _ => false

/-- The values present in one numeric column; pandas aggregations
(`mean`, `min`, `max`) skip missing values. -/
def colVals (f : Row → Option ℚ) (df : List Row) : List ℚ :=
  df.filterMap f

/-- pandas `Series.mean`: arithmetic mean of the present values. -/
def colMean (l : List ℚ) : ℚ :=
  l.sum / l.length

/-- pandas `Series.min` of the present values (the empty case is
unreachable under the emptiness guard of `get_summary_statistics`). -/
def colMin : List ℚ → ℚ
  | [] => 0
  | h :: t => t.foldl min h

/-- pandas `Series.max` of the present values. -/
def colMax : List ℚ → ℚ
  | [] => 0
  | h :: t => t.foldl max h

/-- Python's `round` to the nearest integer with ties to even (banker's
rounding), modelled exactly on rationals. -/
def roundHalfEven (x : ℚ) : ℤ :=
  if x - ⌊x⌋ < 1/2 then ⌊x⌋
  else if 1/2 < x - ⌊x⌋ then ⌊x⌋ + 1
  else if ⌊x⌋ % 2 = 0 then ⌊x⌋ else ⌊x⌋ + 1

/-- Python's `round(v, 2)` (src/analyzer.py line 92). -/
def round2 (q : ℚ) : ℚ :=
  (roundHalfEven (q * 100) : ℚ) / 100

/-- The `mean`/`min`/`max` entry of one indicator in the statistics
dictionary. -/
structure ColStats where
  mean : ℚ
  min : ℚ
  max : ℚ
deriving DecidableEq, Repr

/-- The raw (unrounded) aggregates of one column. -/
def rawColStats (l : List ℚ) : ColStats :=
  ⟨colMean l, colMin l, colMax l⟩

/-- The second loop of `get_summary_statistics`: round every entry to two
decimal places. -/
def roundColStats (c : ColStats) : ColStats :=
  ⟨round2 c.mean, round2 c.min, round2 c.max⟩

/-- The nested statistics dictionary, keyed `temp`/`humidity`/`pressure`. -/
structure SummaryStats where
  temp : ColStats
  humidity : ColStats
  pressure : ColStats
deriving DecidableEq, Repr

/-- `WeatherAnalyzer.get_summary_statistics` (src/analyzer.py lines
67-94): raise `WeatherAnalysisError` on an empty DataFrame, else return
mean/min/max of each of the three columns, each rounded to 2 places. -/
def get_summary_statistics (df : List Row) : Except PyError SummaryStats :=
  if df.isEmpty then
    .error (.analysisError
      "Cannot calculate statistics: DataFrame is empty after cleaning.")
  else
    .ok ⟨roundColStats (rawColStats (colVals Row.temp df)),
         roundColStats (rawColStats (colVals Row.humidity df)),
         roundColStats (rawColStats (colVals Row.pressure df))⟩

/-- The `main` group of the provider's JSON response. -/
structure MainData where
  temp : ℚ
  humidity : ℚ
  pressure : ℚ
deriving DecidableEq, Repr

/-- The provider's JSON response body: `main` may be absent. -/
structure RespBody where
  main : Option MainData
deriving DecidableEq, Repr

/-- The outcome of the `requests.get` call, supplied as an oracle: an
HTTP response with a status code and body — `errText` is the text of the
`HTTPError` that `raise_for_status` raises for it when the status is an
error, a string produced by the requests library — or a network-level
failure (`requests.exceptions.RequestException`). -/
inductive FetchResponse where
  | httpResp (status : ℕ) (body : RespBody) (errText : String)
  | connectionFailure (errMsg : String)
deriving DecidableEq, Repr

/-- The flat record returned by a successful fetch. -/
structure WeatherRecord where
  city : String
  temp : ℚ
  humidity : ℚ
  pressure : ℚ
deriving DecidableEq, Repr

/-- `WeatherDataFetcher.fetch_current_weather` (fetcher.py lines 26-84):
validate the city, perform the request, `raise_for_status` (raises
`HTTPError` for status ≥ 400), check the `main` group, and map every
failure to a `WeatherDataError`. The `WeatherDataError` raised for a
missing `main` group (line 62) is raised inside the `try` block and is
neither an `HTTPError` nor a `RequestException`, so the catch-all
`except Exception` clause (lines 83-84) intercepts it and re-raises it
with the `"An unexpected error occurred: "` prefix; the raises inside
the `except` clauses themselves propagate unwrapped. The second
component of the result records whether the `requests.get` call was
reached. -/
def fetch_current_weather (city : PyVal) (resp : FetchResponse) :
    Except PyError WeatherRecord × Bool :=
  if !city.isTruthy || !city.isStr then
    (.error (.valueError "City name must be a non-empty string."), false)
  else
    match resp with
    | .connectionFailure e =>
        (.error (.weatherDataError ("A connection error occurred: " ++ e)), true)
    | .httpResp status body errText =>
        if 400 ≤ status then
          if status = 404 then
            (.error (.weatherDataError
              ("City '" ++ city.asStr ++ "' not found (Error 404).")), true)
          else if status = 401 then
            (.error (.weatherDataError "Invalid API Key (Error 401)."), true)
          else
            (.error (.weatherDataError
              ("API request failed with status code " ++ toString status ++
                ": " ++ errText)), true)
        else
          match body.main with
          | none =>
              (.error (.weatherDataError ("An unexpected error occurred: " ++
                "API response is missing 'main' weather data.")), true)
          | some m =>
              (.ok ⟨city.asStr, m.temp, m.humidity, m.pressure⟩, true)

/-- `s` contains `sub` as a contiguous substring ("the message mentions
`sub`"). -/
def mentions (s sub : String) : Prop :=
  ∃ a b, s.data = a ++ sub.data ++ b

/-- The three successive pandas filters of `clean_data` coincide with one
filter by the spec's conjunctive predicate. -/
theorem clean_data_eq_filter (df : List Row) :
    clean_data df = df.filter specKeep := by
  unfold clean_data
  rw [List.filter_filter, List.filter_filter]
  refine List.filter_congr ?_
  intro r _
  rcases r with ⟨c, t, h, p⟩
  rcases t with _ | tv <;> rcases h with _ | hv <;> rcases p with _ | pv <;>
    simp [specKeep, geB, leB, gtB, Option.isSome, Bool.and_comm,
      Bool.and_assoc, Bool.and_left_comm]

/-- Numeric value of a list of decimal digit characters. -/
def digitsVal (cs : List Char) : ℕ :=
  cs.foldl (fun a c => 10 * a + (c.toNat - 48)) 0

/-- Parse an unsigned decimal numeral (digits with an optional fractional
part), as accepted by pandas' numeric coercion. -/
def parseUnsigned (cs : List Char) : Option ℚ :=
  let intPart := cs.takeWhile Char.isDigit
  let rest := cs.dropWhile Char.isDigit
  match rest with
  | [] => if intPart.isEmpty then none else some (digitsVal intPart : ℚ)
  | '.' :: frac =>
      if frac.all Char.isDigit && !(intPart.isEmpty && frac.isEmpty) then
        some ((digitsVal intPart : ℚ) + (digitsVal frac : ℚ) / 10 ^ frac.length)
      else none
  | _ => none

/-- Parse a signed decimal numeral from a string; `none` when the string
is not numeric. -/
def parseDecimal (s : String) : Option ℚ :=
  match s.data with
  | '-' :: rest => (parseUnsigned rest).map (fun q => -q)
  | '+' :: rest => parseUnsigned rest
  | cs => parseUnsigned cs

/-- `pd.to_numeric(value, errors='coerce')` on one cell: numbers pass
through (booleans as 1/0), numeric strings are parsed, anything else
becomes the missing marker — this coercion itself never raises. -/
def toNumeric (v : PyVal) : Option ℚ :=
  match v with
  | .pyInt n => some (n : ℚ)
  | .pyFloat q => some q
  | .pyBool b => some (if b then 1 else 0)
  | .pyStr s => parseDecimal s
  | .pyNone => none

/-- One element of the input list of `data_to_dataframe`: a flat mapping
with keys `city`, `temp`, `humidity`, `pressure`, the latter three holding
arbitrary dynamic values. -/
structure RawRecord where
  city : String
  temp : PyVal
  humidity : PyVal
  pressure : PyVal
deriving DecidableEq, Repr

/-- The dynamic argument of `data_to_dataframe`: either an actual Python
list of records, or a value of some other type. -/
inductive PyInput where
  | nonList (v : PyVal)
  | ofList (rs : List RawRecord)

/-- Applying `pd.to_numeric(..., errors='coerce')` to the three numeric
columns of one record; `city` is untouched. -/
def coerceRecord (r : RawRecord) : Row :=
  ⟨r.city, toNumeric r.temp, toNumeric r.humidity, toNumeric r.pressure⟩

/-- `WeatherAnalyzer.data_to_dataframe` (src/analyzer.py lines 20-46):
reject an empty or non-list argument with `WeatherAnalysisError`, else
build the DataFrame and coerce the three numeric columns. -/
def data_to_dataframe (input : PyInput) : Except PyError (List Row) :=
  match input with
  | .nonList _ => .error (.analysisError "Input data list cannot be empty or non-list.")
  | .ofList rs =>
      if rs.isEmpty then
        .error (.analysisError "Input data list cannot be empty or non-list.")
      else
        .ok (rs.map coerceRecord)

/-- `WeatherAnalyzer.convert_celsius_to_kelvin` (src/analyzer.py lines
116-128): `isinstance(temp_c, (int, float))` guard, then `temp_c + 273.15`. -/
def convert_celsius_to_kelvin (tempC : PyVal) : Except PyError ℚ :=
  if tempC.isNumberLike then
    .ok (tempC.toRat + 273.15)
  else
    .error (.valueError "Input temperature must be a number.")

/-- C1: for every weather table, `clean_data` returns exactly the
subsequence of input rows whose `temp`, `humidity` and `pressure` are all
non-missing with `0 ≤ humidity ≤ 100` and `pressure > 0`; the result is a
sublist of the input (subset, original order, no row added), and the
operation is total (an empty result is a valid return value). -/
theorem clean_data_filters_exactly (df : List Row) :
    clean_data df = df.filter specKeep ∧ (clean_data df).Sublist df := by
  refine ⟨clean_data_eq_filter df, ?_⟩
  rw [clean_data_eq_filter df]
  exact List.filter_sublist df

/-- C4: `clean_data` is idempotent. -/
theorem clean_data_idempotent (df : List Row) :
    clean_data (clean_data df) = clean_data df := by
  rw [clean_data_eq_filter df, clean_data_eq_filter (df.filter specKeep),
    List.filter_filter]
  refine List.filter_congr ?_
  intro r _
  exact Bool.and_self (specKeep r)

/-- C2: `data_to_dataframe` fails with `AnalysisError`
(`WeatherAnalysisError`) on every non-list argument and on the empty
list, and on every non-empty list of records it succeeds, returning the
row list with each numeric cell coerced by `toNumeric` (unparseable
values become the missing marker `none`); every input row is retained. -/
theorem data_to_dataframe_contract (v : PyVal) (rs : List RawRecord) :
    data_to_dataframe (.nonList v) =
      .error (.analysisError "Input data list cannot be empty or non-list.") ∧
    data_to_dataframe (.ofList rs) =
      (if rs = [] then
        .error (.analysisError "Input data list cannot be empty or non-list.")
      else .ok (rs.map coerceRecord)) ∧
    (rs.map coerceRecord).length = rs.length := by
  refine ⟨rfl, ?_, rs.length_map coerceRecord⟩
  cases rs <;> simp [data_to_dataframe]

/-- C7: `convert_celsius_to_kelvin` returns exactly `temp_c + 273.15` on
every numeric input (Python's `int` or `float`), in particular `273.15`
at `0`, and fails with `InvalidInputError` (`ValueError`) on every
non-numeric input; it is a pure function of its argument. -/
theorem convert_celsius_to_kelvin_contract (n : ℤ) (q : ℚ) (s : String) :
    convert_celsius_to_kelvin (.pyInt n) = .ok ((n : ℚ) + 273.15) ∧
    convert_celsius_to_kelvin (.pyFloat q) = .ok (q + 273.15) ∧
    convert_celsius_to_kelvin (.pyFloat 0) = .ok 273.15 ∧
    convert_celsius_to_kelvin (.pyStr s) =
      .error (.valueError "Input temperature must be a number.") ∧
    convert_celsius_to_kelvin .pyNone =
      .error (.valueError "Input temperature must be a number.") := by
  refine ⟨rfl, rfl, ?_, rfl, rfl⟩
  simp [convert_celsius_to_kelvin, PyVal.isNumberLike, PyVal.toRat]

/-- C9: the numeric-type check of `convert_celsius_to_kelvin` admits
booleans (Python's `bool` is a subtype of `int`), so `True` and `False`
do not raise but yield `274.15` and `273.15`. -/
theorem convert_celsius_to_kelvin_bool :
    (PyVal.pyBool true).isNumberLike = true ∧
    (PyVal.pyBool false).isNumberLike = true ∧
    convert_celsius_to_kelvin (.pyBool true) = .ok 274.15 ∧
    convert_celsius_to_kelvin (.pyBool false) = .ok 273.15 := by
  refine ⟨rfl, rfl, ?_, ?_⟩ <;>
    norm_num [convert_celsius_to_kelvin, PyVal.isNumberLike, PyVal.toRat]

/-- A `min`-fold is bounded by its accumulator. -/
theorem foldl_min_le_init (t : List ℚ) (a : ℚ) : t.foldl min a ≤ a := by
  induction t generalizing a with
  | nil => exact le_refl a
  | cons h tl ih =>
      exact le_trans (ih (min a h)) (min_le_left a h)

/-- A `min`-fold is bounded by every folded element. -/
theorem foldl_min_le_mem (t : List ℚ) (a x : ℚ) (hx : x ∈ t) :
    t.foldl min a ≤ x := by
  induction t generalizing a with
  | nil => cases hx
  | cons h tl ih =>
      rcases List.mem_cons.mp hx with hx | hx
      · subst hx
        exact le_trans (foldl_min_le_init tl (min a x)) (min_le_right a x)
      · exact ih (min a h) hx

/-- `colMin` is a lower bound of a non-empty column. -/
theorem colMin_le (l : List ℚ) (hl : l ≠ []) (x : ℚ) (hx : x ∈ l) :
    colMin l ≤ x := by
  cases l with
  | nil => exact absurd rfl hl
  | cons h t =>
      rcases List.mem_cons.mp hx with hx | hx
      · subst hx
        exact foldl_min_le_init t x
      · exact foldl_min_le_mem t h x hx

/-- A `max`-fold dominates its accumulator. -/
theorem init_le_foldl_max (t : List ℚ) (a : ℚ) : a ≤ t.foldl max a := by
  induction t generalizing a with
  | nil => exact le_refl a
  | cons h tl ih =>
      exact le_trans (le_max_left a h) (ih (max a h))

/-- A `max`-fold dominates every folded element. -/
theorem mem_le_foldl_max (t : List ℚ) (a x : ℚ) (hx : x ∈ t) :
    x ≤ t.foldl max a := by
  induction t generalizing a with
  | nil => cases hx
  | cons h tl ih =>
      rcases List.mem_cons.mp hx with hx | hx
      · subst hx
        exact le_trans (le_max_right a x) (init_le_foldl_max tl (max a x))
      · exact ih (max a h) hx

/-- `colMax` is an upper bound of a non-empty column. -/
theorem le_colMax (l : List ℚ) (hl : l ≠ []) (x : ℚ) (hx : x ∈ l) :
    x ≤ colMax l := by
  cases l with
  | nil => exact absurd rfl hl
  | cons h t =>
      rcases List.mem_cons.mp hx with hx | hx
      · subst hx
        exact init_le_foldl_max t x
      · exact mem_le_foldl_max t h x hx

/-- The minimum of a non-empty column is at most its mean. -/
theorem colMin_le_colMean (l : List ℚ) (hl : l ≠ []) :
    colMin l ≤ colMean l := by
  have hlen : (0 : ℚ) < l.length := by
    exact_mod_cast List.length_pos.mpr hl
  have hsum : l.length • colMin l ≤ l.sum :=
    List.card_nsmul_le_sum l (colMin l) (fun x hx => colMin_le l hl x hx)
  rw [nsmul_eq_mul] at hsum
  rw [colMean, le_div_iff₀ hlen]
  linarith [hsum]

/-- The mean of a non-empty column is at most its maximum. -/
theorem colMean_le_colMax (l : List ℚ) (hl : l ≠ []) :
    colMean l ≤ colMax l := by
  have hlen : (0 : ℚ) < l.length := by
    exact_mod_cast List.length_pos.mpr hl
  have hsum : l.sum ≤ l.length • colMax l :=
    List.sum_le_card_nsmul l (colMax l) (fun x hx => le_colMax l hl x hx)
  rw [nsmul_eq_mul] at hsum
  rw [colMean, div_le_iff₀ hlen]
  linarith [hsum]

/-- `roundHalfEven` never rounds below the floor. -/
theorem roundHalfEven_lb (x : ℚ) : ⌊x⌋ ≤ roundHalfEven x := by
  unfold roundHalfEven
  split_ifs <;> omega

/-- `roundHalfEven` never rounds above the ceiling of the floor plus one. -/
theorem roundHalfEven_ub (x : ℚ) : roundHalfEven x ≤ ⌊x⌋ + 1 := by
  unfold roundHalfEven
  split_ifs <;> omega

/-- Rounding half-to-even is monotone. -/
theorem roundHalfEven_mono {x y : ℚ} (h : x ≤ y) :
    roundHalfEven x ≤ roundHalfEven y := by
  rcases lt_or_le ⌊x⌋ ⌊y⌋ with hf | hf
  · have h1 := roundHalfEven_ub x
    have h2 := roundHalfEven_lb y
    omega
  · have hfe : ⌊x⌋ = ⌊y⌋ := le_antisymm (Int.floor_le_floor h) hf
    unfold roundHalfEven
    rw [hfe]
    split_ifs <;> first | omega | (exfalso; linarith)

/-- `round2` is monotone. -/
theorem round2_mono {q r : ℚ} (h : q ≤ r) : round2 q ≤ round2 r := by
  have h100 : q * 100 ≤ r * 100 := by linarith
  have hr : roundHalfEven (q * 100) ≤ roundHalfEven (r * 100) :=
    roundHalfEven_mono h100
  have hc : ((roundHalfEven (q * 100) : ℚ)) ≤ (roundHalfEven (r * 100) : ℚ) := by
    exact_mod_cast hr
  unfold round2
  exact div_le_div_of_nonneg_right hc (by norm_num)

/-- Rounded aggregates of a non-empty column are ordered
min ≤ mean ≤ max. -/
theorem roundColStats_ordered (l : List ℚ) (hl : l ≠ []) :
    round2 (colMin l) ≤ round2 (colMean l) ∧
    round2 (colMean l) ≤ round2 (colMax l) :=
  ⟨round2_mono (colMin_le_colMean l hl), round2_mono (colMean_le_colMax l hl)⟩

/-- A row accepted by the cleaning predicate has all three numeric fields
present. -/
theorem specKeep_fields {r : Row} (h : specKeep r = true) :
    r.temp.isSome = true ∧ r.humidity.isSome = true ∧
    r.pressure.isSome = true := by
  rcases r with ⟨c, t, hm, p⟩
  rcases t with _ | tv <;> rcases hm with _ | hv <;> rcases p with _ | pv <;>
    simp [specKeep] at h ⊢

/-- Every numeric column of a non-empty cleaned table has at least one
present value. -/
theorem cleaned_colVals_ne_nil (u : List Row) (h : clean_data u ≠ [])
    (f : Row → Option ℚ)
    (hf : ∀ r : Row, specKeep r = true → (f r).isSome = true) :
    colVals f (clean_data u) ≠ [] := by
  rcases List.exists_mem_of_ne_nil _ h with ⟨r, hr⟩
  have hk : specKeep r = true := by
    have hr2 : r ∈ (clean_data u : List Row) := hr
    rw [clean_data_eq_filter u] at hr2
    exact (List.mem_filter.mp hr2).2
  rcases Option.isSome_iff_exists.mp (hf r hk) with ⟨v, hv⟩
  exact List.ne_nil_of_mem (List.mem_filterMap.mpr ⟨r, hr, hv⟩)

/-- A non-empty list is not `isEmpty`. -/
theorem isEmpty_false_of_ne_nil {α : Type} {l : List α} (h : l ≠ []) :
    l.isEmpty = false := by
  cases hcd : l with
  | nil => exact absurd hcd h
  | cons r t => rfl

/-- C5: on every non-empty cleaned table, `get_summary_statistics`
succeeds and, for each of the three indicators, the rounded aggregates
satisfy min ≤ mean ≤ max. -/
theorem get_summary_statistics_min_le_mean_le_max (u : List Row)
    (h : clean_data u ≠ []) :
    ∃ s, get_summary_statistics (clean_data u) = .ok s ∧
      s.temp.min ≤ s.temp.mean ∧ s.temp.mean ≤ s.temp.max ∧
      s.humidity.min ≤ s.humidity.mean ∧ s.humidity.mean ≤ s.humidity.max ∧
      s.pressure.min ≤ s.pressure.mean ∧ s.pressure.mean ≤ s.pressure.max := by
  have hE := isEmpty_false_of_ne_nil h
  have htmp := cleaned_colVals_ne_nil u h Row.temp
    (fun r hk => (specKeep_fields hk).1)
  have hhum := cleaned_colVals_ne_nil u h Row.humidity
    (fun r hk => (specKeep_fields hk).2.1)
  have hpre := cleaned_colVals_ne_nil u h Row.pressure
    (fun r hk => (specKeep_fields hk).2.2)
  refine ⟨⟨roundColStats (rawColStats (colVals Row.temp (clean_data u))),
          roundColStats (rawColStats (colVals Row.humidity (clean_data u))),
          roundColStats (rawColStats (colVals Row.pressure (clean_data u)))⟩,
        by simp [get_summary_statistics, hE], ?_, ?_, ?_, ?_, ?_, ?_⟩
  · exact (roundColStats_ordered _ htmp).1
  · exact (roundColStats_ordered _ htmp).2
  · exact (roundColStats_ordered _ hhum).1
  · exact (roundColStats_ordered _ hhum).2
  · exact (roundColStats_ordered _ hpre).1
  · exact (roundColStats_ordered _ hpre).2

/-- Witness for C5 at a one-row table that survives cleaning. -/
theorem get_summary_statistics_min_le_mean_le_max_witness :
    clean_data [⟨"Kyiv", some 20, some 50, some 1000⟩] ≠ [] ∧
    ∃ s, get_summary_statistics
        (clean_data [⟨"Kyiv", some 20, some 50, some 1000⟩]) = .ok s ∧
      s.temp.min ≤ s.temp.mean ∧ s.temp.mean ≤ s.temp.max ∧
      s.humidity.min ≤ s.humidity.mean ∧ s.humidity.mean ≤ s.humidity.max ∧
      s.pressure.min ≤ s.pressure.mean ∧ s.pressure.mean ≤ s.pressure.max :=
  ⟨by decide, get_summary_statistics_min_le_mean_le_max _ (by decide)⟩

/-- C6: `get_summary_statistics` fails with `AnalysisError` exactly on
tables with zero rows, and succeeds (with statistics for all three
indicators) exactly on non-empty tables. -/
theorem get_summary_statistics_empty_iff (df : List Row) :
    ((∃ msg, get_summary_statistics df = .error (.analysisError msg)) ↔
      df = []) ∧
    ((∃ s, get_summary_statistics df = .ok s) ↔ df ≠ []) := by
  cases df <;> simp [get_summary_statistics]

/-- C10: `get_summary_statistics` rounds every aggregate with `round2`,
and `round2` resolves exact halfway values to the neighbour with an even
last digit (round-half-to-even, Python's `round`). -/
theorem get_summary_statistics_rounds_half_even (df : List Row) (q : ℚ)
    (n : ℤ) (hdf : df ≠ []) (hq : q * 100 = (n : ℚ) + 1/2) :
    (∃ s, get_summary_statistics df = .ok s ∧
        s.temp.mean = round2 (colMean (colVals Row.temp df)) ∧
        s.temp.min = round2 (colMin (colVals Row.temp df)) ∧
        s.temp.max = round2 (colMax (colVals Row.temp df))) ∧
    Even (roundHalfEven (q * 100)) ∧
    round2 q = ((if n % 2 = 0 then n else n + 1 : ℤ) : ℚ) / 100 := by
  have hE := isEmpty_false_of_ne_nil hdf
  have hfloor : ⌊q * 100⌋ = n := by
    rw [hq]
    exact Int.floor_eq_iff.mpr ⟨by linarith, by linarith⟩
  have hfrac : q * 100 - (⌊q * 100⌋ : ℚ) = 1/2 := by
    rw [hfloor, hq]; ring
  have hval : roundHalfEven (q * 100) = if n % 2 = 0 then n else n + 1 := by
    unfold roundHalfEven
    rw [hfrac, hfloor]
    simp
  refine ⟨⟨⟨roundColStats (rawColStats (colVals Row.temp df)),
          roundColStats (rawColStats (colVals Row.humidity df)),
          roundColStats (rawColStats (colVals Row.pressure df))⟩,
        by simp [get_summary_statistics, hE], rfl, rfl, rfl⟩, ?_, ?_⟩
  · rw [hval]
    split_ifs with h2
    · exact Int.even_iff.mpr h2
    · exact Int.even_iff.mpr (by omega)
  · unfold round2
    rw [hval]

/-- Witness for C10 at the table `[{temp:20, humidity:50, pressure:1000}]`
and the halfway value 0.125 (= 12.5 hundredths, rounding down to the even
neighbour 0.12). -/
theorem get_summary_statistics_rounds_half_even_witness :
    ([(⟨"Kyiv", some 20, some 50, some 1000⟩ : Row)] ≠ []) ∧
    ((1/8 : ℚ) * 100 = ((12 : ℤ) : ℚ) + 1/2) ∧
    ((∃ s, get_summary_statistics [(⟨"Kyiv", some 20, some 50, some 1000⟩ : Row)] = .ok s ∧
        s.temp.mean = round2 (colMean (colVals Row.temp [(⟨"Kyiv", some 20, some 50, some 1000⟩ : Row)])) ∧
        s.temp.min = round2 (colMin (colVals Row.temp [(⟨"Kyiv", some 20, some 50, some 1000⟩ : Row)])) ∧
        s.temp.max = round2 (colMax (colVals Row.temp [(⟨"Kyiv", some 20, some 50, some 1000⟩ : Row)]))) ∧
      Even (roundHalfEven ((1/8 : ℚ) * 100)) ∧
      round2 (1/8) = ((if (12 : ℤ) % 2 = 0 then (12 : ℤ) else (12 : ℤ) + 1 : ℤ) : ℚ) / 100) :=
  ⟨by decide, by norm_num,
    get_summary_statistics_rounds_half_even _ (1/8) 12 (by decide) (by norm_num)⟩

/-- C8: for every city argument that is the empty string or not a string
at all, `fetch_current_weather` fails with `InvalidInputError`
(`ValueError`) whatever the network would have answered, and the
`requests.get` call is never reached (second component `false`). -/
theorem fetch_current_weather_invalid_city (v : PyVal) (resp : FetchResponse)
    (h : v = .pyStr "" ∨ v.isStr = false) :
    fetch_current_weather v resp =
      (.error (.valueError "City name must be a non-empty string."), false) := by
  rcases h with h | h
  · subst h
    simp [fetch_current_weather, PyVal.isTruthy]
  · rcases v with n | q | bb | s | _ <;>
      simp_all [fetch_current_weather, PyVal.isStr]

/-- Witness for C8: the empty city with a healthy provider behind it. -/
theorem fetch_current_weather_invalid_city_witness :
    (PyVal.pyStr "" = PyVal.pyStr "" ∨ (PyVal.pyStr "").isStr = false) ∧
    fetch_current_weather (.pyStr "")
        (.httpResp 200 ⟨some ⟨20, 50, 1000⟩⟩ "") =
      (.error (.valueError "City name must be a non-empty string."), false) :=
  ⟨Or.inl rfl,
    fetch_current_weather_invalid_city _ _ (Or.inl rfl)⟩

/-- C3: every fetch failure surfaces as a `WeatherDataError` with a
distinguishing message: a 2xx body lacking `main` mentions "main" (the
inner error is re-wrapped by the catch-all `except Exception` with the
"An unexpected error occurred: " prefix), HTTP 404 mentions "not found",
HTTP 401 mentions the API key, and a network-level failure mentions a
connection error. -/
theorem fetch_current_weather_failure_messages (city : String)
    (bmain b404 b401 : RespBody) (st : ℕ) (e et : String)
    (hc : city ≠ "") (hm : bmain.main = none) (hst : st < 400) :
    ((fetch_current_weather (.pyStr city) (.httpResp st bmain et)).1 =
        .error (.weatherDataError ("An unexpected error occurred: " ++
          "API response is missing 'main' weather data.")) ∧
      mentions ("An unexpected error occurred: " ++
        "API response is missing 'main' weather data.") "main") ∧
    ((fetch_current_weather (.pyStr city) (.httpResp 404 b404 et)).1 =
        .error (.weatherDataError ("City '" ++ city ++ "' not found (Error 404).")) ∧
      mentions ("City '" ++ city ++ "' not found (Error 404).") "not found") ∧
    ((fetch_current_weather (.pyStr city) (.httpResp 401 b401 et)).1 =
        .error (.weatherDataError "Invalid API Key (Error 401).") ∧
      mentions "Invalid API Key (Error 401)." "Key") ∧
    ((fetch_current_weather (.pyStr city) (.connectionFailure e)).1 =
        .error (.weatherDataError ("A connection error occurred: " ++ e)) ∧
      mentions ("A connection error occurred: " ++ e) "connection error") := by
  have h400 : ¬ (400 ≤ st) := by omega
  refine ⟨⟨?_, ?_⟩, ⟨?_, ?_⟩, ⟨?_, ?_⟩, ⟨?_, ?_⟩⟩
  · simp [fetch_current_weather, PyVal.isTruthy, PyVal.isStr, hc, h400, hm]
  · exact ⟨"An unexpected error occurred: API response is missing '".data,
      "' weather data.".data, rfl⟩
  · simp [fetch_current_weather, PyVal.isTruthy, PyVal.isStr, PyVal.asStr, hc]
  · exact ⟨"City '".data ++ city.data ++ "' ".data, " (Error 404).".data,
      by simp [String.data_append, List.append_assoc]⟩
  · simp [fetch_current_weather, PyVal.isTruthy, PyVal.isStr, hc]
  · exact ⟨"Invalid API ".data, " (Error 401).".data, rfl⟩
  · simp [fetch_current_weather, PyVal.isTruthy, PyVal.isStr, hc]
  · exact ⟨"A ".data, " occurred: ".data ++ e.data,
      by simp [String.data_append, List.append_assoc]⟩

/-- Witness for C3 at `city = "Nowhere"`, a 200-status body lacking
`main`, and a connection failure text. -/
theorem fetch_current_weather_failure_messages_witness :
    ("Nowhere" ≠ "") ∧ (RespBody.mk none).main = none ∧ (200 < 400) ∧
    (((fetch_current_weather (.pyStr "Nowhere")
          (.httpResp 200 ⟨none⟩ "404 Client Error")).1 =
        .error (.weatherDataError ("An unexpected error occurred: " ++
          "API response is missing 'main' weather data.")) ∧
      mentions ("An unexpected error occurred: " ++
        "API response is missing 'main' weather data.") "main") ∧
    ((fetch_current_weather (.pyStr "Nowhere")
          (.httpResp 404 ⟨some ⟨20, 50, 1000⟩⟩ "404 Client Error")).1 =
        .error (.weatherDataError ("City '" ++ "Nowhere" ++ "' not found (Error 404).")) ∧
      mentions ("City '" ++ "Nowhere" ++ "' not found (Error 404).") "not found") ∧
    ((fetch_current_weather (.pyStr "Nowhere")
          (.httpResp 401 ⟨some ⟨20, 50, 1000⟩⟩ "404 Client Error")).1 =
        .error (.weatherDataError "Invalid API Key (Error 401).") ∧
      mentions "Invalid API Key (Error 401)." "Key") ∧
    ((fetch_current_weather (.pyStr "Nowhere")
          (.connectionFailure "timed out")).1 =
        .error (.weatherDataError ("A connection error occurred: " ++ "timed out")) ∧
      mentions ("A connection error occurred: " ++ "timed out") "connection error")) :=
  ⟨by decide, rfl, by decide,
    fetch_current_weather_failure_messages "Nowhere" ⟨none⟩
      ⟨some ⟨20, 50, 1000⟩⟩ ⟨some ⟨20, 50, 1000⟩⟩ 200 "timed out"
      "404 Client Error" (by decide) rfl (by decide)⟩
